import Mathlib

/-!
Shallow embedding of the Kite REST API client (`src/kiteclient/__init__.py`).

The embedding models the request dispatch and error-classification pipeline:
parameter injection (`_request` lines 627-632), the route table and route
templating (lines 14-46 and 634-641), the transport-failure classification
(lines 647-664), the content-type driven response handling with the
403/session-hook short circuit and the `error_type` dispatch (lines 666-716),
and the Python-specific behaviours the source exhibits: the shared mutable
default `params={}` dictionaries of `_get`/`_post`/`_put`/`_delete`, dictionary
subscripting raising `KeyError` on a missing key, and subscripting `None`
raising `TypeError`.
-/

namespace KiteModel

/-- JSON values as produced by `json.loads`.  Objects are association lists
(first binding wins on lookup, matching a dict built without duplicate keys). -/
inductive JVal where
  | s (v : String)
  | n (v : Int)
  | b (v : Bool)
  | arr (items : List JVal)
  | obj (fields : List (String × JVal))
  | null

abbrev JObj := List (String × JVal)

/-- Python `d[k]` on a dict: `some` value when the key is present, `none`
meaning the subscript raises `KeyError k`. -/
def jGet (o : JObj) (k : String) : Option JVal :=
  (o.find? fun p => p.1 == k).map (·.2)

/-- The exceptions raised by the client.  The `exceptions` module itself is
imported (`import exceptions as ex`) and is not part of this repository's
source, so each constructor simply records the arguments passed at the raise
site in `_request`; `pyKeyError` and `pyTypeError` model the interpreter's own
`KeyError`/`TypeError`. -/
inductive KErr where
  | generalExc (message : JVal) (code : Nat)
  | userExc (message : JVal) (code : Nat)
  | twoFAExc (message : JVal) (questions : JVal) (code : Nat)
  | orderExc (message : JVal) (code : Nat)
  | inputExc (message : JVal) (code : Nat)
  | dataExcMsg (message : String)
  | dataExc (message : JVal) (code : Nat)
  | networkExc (message : JVal) (code : Nat)
  | clientNetworkExc (message : String) (code : Nat)
  | pyKeyError (key : String)
  | pyTypeError

/-- Outcome of `_request` (and of the endpoint wrappers built on it):
a returned `data["data"]` value, returned raw body content (image branch),
the bare `return` of the session-hook path (Python `None`), or a raised
exception. -/
inductive ReqOutcome where
  | data (d : JVal)
  | content (raw : String)
  | noneRet
  | raised (e : KErr)

/-- A Kite client instance.  `root` models the instance attribute `self.root`
assigned by `__init__` (line 58); note that `_request` never reads it — it
reads `self._root`, which resolves to the class attribute (line 11), modelled
below by `kiteClassRoot`.  `sessionHookSet` records whether `_session_hook`
is a registered callback (truthy) rather than its default `None`. -/
structure Kite where
  user_id : String
  token : Option String
  root : Option String
  debug : Bool
  timeout : Nat
  sessionHookSet : Bool
deriving DecidableEq, Repr

/-- Class attribute `Kite._root = "http://localhost:8000"` (line 11).  Instance
construction assigns `self.root`, never `self._root`, so attribute lookup of
`self._root` in `_request` always yields this class value. -/
def kiteClassRoot : String := "http://localhost:8000"

/-- Truthiness of `self.token` as tested by `if self.token:` (line 631):
`None` and the empty string are falsy. -/
def truthyToken : Option String → Bool
  | none => false
  | some t => !(t == "")

/-- Constructor `__init__(self, user_id, token=None, root=None, debug=False,
timeout=7)` (lines 51-58).  The `root` argument is stored in the instance
attribute `root` only when truthy (`if root:`). -/
def Kite.init (user_id : String) (token : Option String) (root : Option String)
    (debug : Bool) (timeout : Nat) : Kite :=
  { user_id := user_id
    token := token
    root := match root with
            | none => none
            | some r => if r == "" then none else some r
    debug := debug
    timeout := timeout
    sessionHookSet := false }

/-- A Python dict of request parameters, as an association list in insertion
order (assignment to an existing key overwrites in place, a new key is
appended — iteration order of the model). -/
abbrev Params := List (String × String)

/-- Python `ps[k] = v` on a dict. -/
def setParam (ps : Params) (k v : String) : Params :=
  if ps.any (fun p => p.1 == k) then
    ps.map (fun p => if p.1 == k then (k, v) else p)
  else
    ps ++ [(k, v)]

/-- Python `ps.get(k)` on a dict. -/
def getParam (ps : Params) (k : String) : Option String :=
  (ps.find? fun p => p.1 == k).map (·.2)

/-- Lines 627-632 of `_request`: mutate the params dict by setting
`user_id` unconditionally and `token` when `self.token` is truthy. -/
def injectAuth (c : Kite) (ps : Params) : Params :=
  let ps1 := setParam ps "user_id" c.user_id
  if truthyToken c.token then
    setParam ps1 "token" (c.token.getD "")
  else
    ps1

/-- The route table `Kite._routes` (lines 14-46).  The source's dict literal
lists the key `"orders"` twice with the same value `"/orders"`; a Python dict
keeps one binding, so it appears once here. -/
def kiteRoutes : List (String × String) := [
  ("login", "/user/login"),
  ("2fa", "/user/2fa"),
  ("logout", "/user/logout"),
  ("profile", "/user/profile"),
  ("password", "/user/password"),
  ("transpassword", "/user/transpassword"),
  ("margins", "/user/margins/{segment}"),
  ("session_hash", "/user/session_hash"),
  ("orders", "/orders"),
  ("order_info", "/orders/{order_id}"),
  ("order_modify", "/orders/{order_id}"),
  ("order_cancel", "/orders/{order_id}"),
  ("amo_place", "/amo"),
  ("amo_modify", "/amo/{order_id}"),
  ("amo_cancel", "/amo/{order_id}"),
  ("order", "/orders/{order_id}"),
  ("trades", "/trades"),
  ("positions", "/positions"),
  ("holdings", "/holdings"),
  ("holdings_t1", "/holdings/t1"),
  ("product_modify", "/positions"),
  ("scrips", "/scrips/{exchange}"),
  ("quote", "/quote/{exchange}/{tradingsymbol}"),
  ("messages_admin", "/messages/admin"),
  ("messages_exchange", "/messages/exchange")]

/-- Whether `pat` is a prefix of the second list (character-wise). -/
def matchesAt : List Char → List Char → Bool
  | [], _ => true
  | _ :: _, [] => false
  | p :: ps, c :: cs => if p = c then matchesAt ps cs else false

/-- Worker for `replaceSub`, structurally recursive on a fuel argument so
that it evaluates by kernel reduction.  Each step consumes at least one
character of the scanned list, so fuel equal to the list's length always
suffices and the fuel-exhausted branch is unreachable from `replaceSub`. -/
def replaceSubFuel (pat rep : List Char) : Nat → List Char → List Char
  | 0, s => s
  | _ + 1, [] => []
  | f + 1, c :: rest =>
    if 0 < pat.length ∧ matchesAt pat (c :: rest) then
      rep ++ replaceSubFuel pat rep f (rest.drop (pat.length - 1))
    else
      c :: replaceSubFuel pat rep f rest

/-- Python `s.replace(pat, rep)` on strings (as character lists): replace
every non-overlapping occurrence of `pat`, scanning left to right.  The
patterns built by `_request` are never empty, and an empty pattern here is a
no-op at each position. -/
def replaceSub (pat rep s : List Char) : List Char :=
  replaceSubFuel pat rep s.length s

/-- Whether `pat` occurs (as a contiguous sublist) anywhere in `s`. -/
def occursIn (pat : List Char) : List Char → Bool
  | [] => false
  | c :: rest => matchesAt pat (c :: rest) || occursIn pat rest

/-- The placeholder pattern `"{" + k + "}"` built at line 639. -/
def placeholderPat (k : String) : List Char :=
  '{' :: (k.data ++ ['}'])

/-- Lines 637-639 of `_request`: when the route template contains `"{"`,
iterate over the params and replace each `"{" + k + "}"` by the (stringified)
value.  Parameter values in the model are already strings, so `str` is the
identity. -/
def resolveUri (uri : List Char) (ps : Params) : List Char :=
  if uri.contains '{' then
    ps.foldl (fun u kv => replaceSub (placeholderPat kv.1) kv.2.data u) uri
  else
    uri

/-- A request as handed to `requests.request` (line 648): method, final URL,
and the params dict (sent as body for POST, as query string otherwise). -/
structure SentRequest where
  method : String
  url : List Char
  params : Params
deriving DecidableEq, Repr

/-- Outcome of the pre-send phase of `_request` (lines 624-641): either the
request that will be sent, or the `KeyError` raised by `self._routes[route]`
for an unknown route name.  No other failure exists before the send. -/
inductive PreSend where
  | sent (r : SentRequest)
  | routeKeyError (name : String)
deriving DecidableEq, Repr

/-- Pre-send phase of `_request(route, method, params)`: inject auth
parameters (mutating the given dict), look the route up, resolve the
template, and form `url = self._root + uri`.  Returns the outcome together
with the params dict after mutation (the same object the caller passed). -/
def prepare (c : Kite) (route method : String) (ps : Params) :
    PreSend × Params :=
  let ps2 := injectAuth c ps
  match kiteRoutes.find? (fun p => p.1 == route) with
  | none => (.routeKeyError route, ps2)
  | some kv =>
    (.sent { method := method
             url := kiteClassRoot.data ++ resolveUri kv.2.data ps2
             params := ps2 }, ps2)

/-- A `_get` call that omits the `params` argument, e.g. `orders()`,
`profile()`, `trades()`.  Python evaluated the default `params={}` once at
function definition, so every such call shares one dict: `shared` is its
current contents, and the returned `Params` is its contents after the call
(the call mutates the shared object through `_request`). -/
def getNoParams (c : Kite) (route : String) (shared : Params) :
    PreSend × Params :=
  prepare c route "GET" shared

/-- A `_get` call with an explicitly supplied params dict, e.g.
`margins(segment)`.  The dict is freshly built by the caller, but `_request`
still mutates it; the returned `Params` is the caller's dict after the call. -/
def getWithParams (c : Kite) (route : String) (ps : Params) :
    PreSend × Params :=
  prepare c route "GET" ps

/-- Transport-layer failure categories, corresponding to the exception
classes caught at lines 657-664: `requests.ConnectionError`,
`requests.Timeout`, `requests.HTTPError`, and any other exception (carrying
its message). -/
inductive TransportFailure where
  | connError
  | timeoutErr
  | httpErr
  | otherErr (message : String)
deriving DecidableEq, Repr

/-- The `except` chain of `_request` (lines 657-664): each transport failure
category is re-raised as a `ClientNetworkException` with a fixed message and
synthetic numeric code. -/
def transportError : TransportFailure → KErr
  | .connError => .clientNetworkExc "Gateway connection error" 503
  | .timeoutErr => .clientNetworkExc "Gateway timed out" 504
  | .httpErr => .clientNetworkExc "Invalid response from gatway" 502
  | .otherErr m => .clientNetworkExc m 500

/-- An HTTP response as seen by `_request` after the send: status code, the
`content-type` header, the raw body `r.content`, and the result of
`json.loads(r.content)` when it is attempted (`none` models a parse failure,
which the source catches and converts to `DataException`). -/
structure Resp where
  status_code : Nat
  contentType : String
  content : String
  json : Option JVal

/-- The string content of an `error_type` JSON value; Python compares
`data["error_type"] == "..."`, which is `False` for any non-string value. -/
def errTypeStr : JVal → Option String
  | .s v => some v
  | _ => none

/-- Build the raise outcome for an error branch that passes
`data["message"]` and `code=r.status_code` (each of the non-2FA branches at
lines 684-709): a missing `message` key raises `KeyError` first. -/
def withMsg (o : JObj) (code : Nat) (k : JVal → Nat → KErr) : ReqOutcome :=
  match jGet o "message" with
  | none => .raised (.pyKeyError "message")
  | some m => .raised (k m code)

/-- The `error_type` dispatch of `_request` (lines 684-709).  Looking up
`data["error_type"]` raises `KeyError` when the key is absent.  The source's
`elif` chain tests `GeneralException` a second time between `OrderException`
and `InputException`; that branch is unreachable (the first test already
caught it) and is therefore not repeated here.  The `TwoFAException` branch
additionally reads `data["questions"]` (after `data["message"]`, following
Python's argument evaluation order).  The final `else` falls back to
`GeneralException`. -/
def mapApiError (o : JObj) (code : Nat) : ReqOutcome :=
  match jGet o "error_type" with
  | none => .raised (.pyKeyError "error_type")
  | some et =>
    if errTypeStr et = some "GeneralException" then
      withMsg o code .generalExc
    else if errTypeStr et = some "UserException" then
      withMsg o code .userExc
    else if errTypeStr et = some "TwoFAException" then
      match jGet o "message" with
      | none => .raised (.pyKeyError "message")
      | some m =>
        match jGet o "questions" with
        | none => .raised (.pyKeyError "questions")
        | some q => .raised (.twoFAExc m q code)
    else if errTypeStr et = some "OrderException" then
      withMsg o code .orderExc
    else if errTypeStr et = some "InputException" then
      withMsg o code .inputExc
    else if errTypeStr et = some "DataException" then
      withMsg o code .dataExc
    else if errTypeStr et = some "NetworkException" then
      withMsg o code .networkExc
    else
      withMsg o code .generalExc

/-- Response handling of `_request` (lines 666-716), for a client whose
session hook is registered iff `hasHook`.  Returns the outcome together with
the number of session-hook invocations performed.  Structure of the source:
a `content-type` test selects JSON handling, the image branch (`image/jpeg`
or `image/jpg`, returning `r.content` unconditionally), or
`DataException("Invalid response format")`.  In the JSON branch a parse
failure raises `DataException("Unparsable response")`; then `data["status"]`
is compared with `"error"` (subscripting a non-dict JSON value raises
`TypeError`, a missing key raises `KeyError`); on error, an HTTP 403 with a
registered hook invokes the hook and returns bare `None`, otherwise the
`error_type` dispatch decides; on non-error status, `data["data"]` is
returned. -/
def handleResponse (hasHook : Bool) (r : Resp) : ReqOutcome × Nat :=
  if r.contentType = "application/json" then
    match r.json with
    | none => (.raised (.dataExcMsg "Unparsable response"), 0)
    | some d =>
      match d with
      | .obj o =>
        match jGet o "status" with
        | none => (.raised (.pyKeyError "status"), 0)
        | some st =>
          match st with
          | .s "error" =>
            if r.status_code = 403 then
              if hasHook then
                (.noneRet, 1)
              else
                (mapApiError o r.status_code, 0)
            else
              (mapApiError o r.status_code, 0)
          | _ =>
            match jGet o "data" with
            | none => (.raised (.pyKeyError "data"), 0)
            | some v => (.data v, 0)
      | _ => (.raised .pyTypeError, 0)
  else if r.contentType = "image/jpeg" ∨ r.contentType = "image/jpg" then
    (.content r.content, 0)
  else
    (.raised (.dataExcMsg "Invalid response format"), 0)

/-- Python subscripting `x["order_id"]` as applied by `order_place`,
`order_modify`, `order_cancel`, `amo_place`, `amo_modify` and `amo_cancel`
to the value returned by `_request` (lines 316, 342, 346, 366, 385, 389).
A propagating exception never reaches the subscript; `None` (the
session-hook path) and any non-dict value raise `TypeError`; a dict without
the key raises `KeyError`. -/
def subscriptOrderId : ReqOutcome → ReqOutcome
  | .raised e => .raised e
  | .noneRet => .raised .pyTypeError
  | .content _ => .raised .pyTypeError
  | .data d =>
    match d with
    | .obj o =>
      match jGet o "order_id" with
      | none => .raised (.pyKeyError "order_id")
      | some v => .data v
    | _ => .raised .pyTypeError

/-- The response-handling portion of an order-mutation endpoint
(`order_place` and the five sibling methods): `_request`'s outcome
subscripted with `["order_id"]`, paired with the hook-invocation count. -/
def orderEndpointOutcome (hasHook : Bool) (r : Resp) : ReqOutcome × Nat :=
  let res := handleResponse hasHook r
  (subscriptOrderId res.1, res.2)

/-- Whether a raised error is the `GeneralException` kind. -/
def isGeneralRaise : ReqOutcome → Bool
  | .raised (.generalExc _ _) => true
  | _ => false

/-- Whether a JSON value is one of the seven recognised `error_type`
strings of the dispatch table. -/
def isMappedTypeName (et : JVal) : Bool :=
  errTypeStr et = some "GeneralException" ∨
  errTypeStr et = some "UserException" ∨
  errTypeStr et = some "TwoFAException" ∨
  errTypeStr et = some "OrderException" ∨
  errTypeStr et = some "InputException" ∨
  errTypeStr et = some "DataException" ∨
  errTypeStr et = some "NetworkException"

/-- No `'{'` character occurs in the list. -/
def braceFree (s : List Char) : Bool :=
  s.all (fun c => c != '{')

/-!
Helper lemmas about `replaceSub`, used for the route-templating claims.
-/

/-- `replaceSubFuel` ignores the exact fuel value as long as it is at least
the length of the scanned list. -/
theorem replaceSubFuel_fuel_irrel (pat rep : List Char) :
    ∀ f g s, s.length ≤ f → s.length ≤ g →
      replaceSubFuel pat rep f s = replaceSubFuel pat rep g s := by
  intro f
  induction f with
  | zero =>
    intro g s hf _
    have : s = [] := List.eq_nil_of_length_eq_zero (Nat.le_zero.mp hf)
    subst this
    cases g <;> rfl
  | succ f ih =>
    intro g s hf hg
    cases s with
    | nil => cases g <;> rfl
    | cons c rest =>
      cases g with
      | zero => simp at hg
      | succ g =>
        simp only [replaceSubFuel]
        by_cases h : 0 < pat.length ∧ matchesAt pat (c :: rest) = true
        · rw [if_pos h, if_pos h]
          have hd : (rest.drop (pat.length - 1)).length ≤ f := by
            have := List.length_drop (pat.length - 1) rest
            simp only [List.length_cons] at hf
            omega
          have hd' : (rest.drop (pat.length - 1)).length ≤ g := by
            have := List.length_drop (pat.length - 1) rest
            simp only [List.length_cons] at hg
            omega
          rw [ih g _ hd hd']
        · rw [if_neg h, if_neg h]
          have hr : rest.length ≤ f := by
            simp only [List.length_cons] at hf; omega
          have hr' : rest.length ≤ g := by
            simp only [List.length_cons] at hg; omega
          rw [ih g rest hr hr']

/-- Scanning the empty list is the empty list. -/
theorem replaceSub_nil (pat rep : List Char) : replaceSub pat rep [] = [] := rfl

/-- One-step unfolding of `replaceSub` on a nonempty list. -/
theorem replaceSub_cons (pat rep : List Char) (c : Char) (rest : List Char) :
    replaceSub pat rep (c :: rest) =
      if 0 < pat.length ∧ matchesAt pat (c :: rest) then
        rep ++ replaceSub pat rep (rest.drop (pat.length - 1))
      else
        c :: replaceSub pat rep rest := by
  show replaceSubFuel pat rep (rest.length + 1) (c :: rest) = _
  simp only [replaceSubFuel]
  by_cases h : 0 < pat.length ∧ matchesAt pat (c :: rest) = true
  · rw [if_pos h, if_pos h]
    congr 1
    exact replaceSubFuel_fuel_irrel pat rep rest.length _ _
      (by have := List.length_drop (pat.length - 1) rest; omega)
      (Nat.le_refl _)
  · rw [if_neg h, if_neg h]
    rfl

/-- A pattern is matched by any list that begins with it. -/
theorem matchesAt_append_self (p q : List Char) :
    matchesAt p (p ++ q) = true := by
  induction p with
  | nil => rfl
  | cons c t ih => simp [matchesAt, ih]

/-- Replacing at an occurrence sitting at the head of the list. -/
theorem replaceSub_head_match (pat rep s : List Char) (h : 0 < pat.length) :
    replaceSub pat rep (pat ++ s) = rep ++ replaceSub pat rep s := by
  cases pat with
  | nil => simp at h
  | cons c t =>
    rw [List.cons_append, replaceSub_cons]
    rw [if_pos ⟨h, by rw [← List.cons_append]; exact matchesAt_append_self _ _⟩]
    congr 1
    simp only [List.length_cons, Nat.add_sub_cancel]
    rw [List.drop_left' rfl]

/-- A pattern that starts with `'{'` finds no occurrence beginning inside a
brace-free prefix: replacement skips the prefix untouched. -/
theorem replaceSub_append_of_braceFree (p' rep a b : List Char)
    (ha : braceFree a = true) :
    replaceSub ('{' :: p') rep (a ++ b) = a ++ replaceSub ('{' :: p') rep b := by
  induction a with
  | nil => simp
  | cons c t ih =>
    simp only [braceFree, List.all_cons, Bool.and_eq_true, bne_iff_ne] at ha
    obtain ⟨hc, ht⟩ := ha
    rw [List.cons_append, replaceSub_cons]
    have hm : matchesAt ('{' :: p') (c :: (t ++ b)) = false := by
      simp only [matchesAt]
      rw [if_neg (fun h => hc h.symm)]
    rw [if_neg (by simp [hm])]
    rw [ih (by simp [braceFree, ht]), List.cons_append]

/-- A pattern that starts with `'{'` leaves a brace-free list unchanged. -/
theorem replaceSub_of_braceFree (p' rep s : List Char)
    (hs : braceFree s = true) :
    replaceSub ('{' :: p') rep s = s := by
  have := replaceSub_append_of_braceFree p' rep s [] hs
  simpa [replaceSub_nil] using this

/-- A pattern with no occurrence leaves the list unchanged (for any
replacement). -/
theorem replaceSub_of_not_occursIn (pat rep s : List Char)
    (h : occursIn pat s = false) :
    replaceSub pat rep s = s := by
  induction s with
  | nil => rfl
  | cons c rest ih =>
    simp only [occursIn, Bool.or_eq_false_iff] at h
    rw [replaceSub_cons, if_neg (by simp [h.1])]
    rw [ih h.2]

/-- `braceFree` distributes over append. -/
theorem braceFree_append (a b : List Char) :
    braceFree (a ++ b) = (braceFree a && braceFree b) := by
  simp [braceFree, List.all_append]

/-- Replacing a pattern inside the pattern itself yields the replacement. -/
theorem replaceSub_self (pat rep : List Char) (h : 0 < pat.length) :
    replaceSub pat rep pat = rep := by
  have := replaceSub_head_match pat rep [] h
  simpa [replaceSub_nil] using this

/-- Resolution of a template of the shape `lit ++ "{key}"` (a brace-free
literal followed by one trailing placeholder) against the parameter list a
wrapper method builds: the placeholder's own key first, then the injected
`user_id` and `token`.  The placeholder is replaced by the literal value and
the auth parameters, whose placeholders do not occur, change nothing. -/
theorem single_trailing_resolve (lit : List Char) (key v u tk : String)
    (hlit : braceFree lit = true) (hv : braceFree v.data = true) :
    resolveUri (lit ++ placeholderPat key)
        [(key, v), ("user_id", u), ("token", tk)] = lit ++ v.data := by
  have e : placeholderPat key = '{' :: (key.data ++ ['}']) := rfl
  have hpatlen : 0 < (placeholderPat key).length := by simp [placeholderPat]
  have h1 : replaceSub (placeholderPat key) v.data (lit ++ placeholderPat key)
      = lit ++ v.data := by
    rw [e, replaceSub_append_of_braceFree _ _ _ _ hlit, ← e,
      replaceSub_self _ _ hpatlen]
  have hbf : braceFree (lit ++ v.data) = true := by
    rw [braceFree_append, hlit, hv]; rfl
  have h2 : replaceSub (placeholderPat "user_id") u.data (lit ++ v.data)
      = lit ++ v.data := replaceSub_of_braceFree _ _ _ hbf
  have h3 : replaceSub (placeholderPat "token") tk.data (lit ++ v.data)
      = lit ++ v.data := replaceSub_of_braceFree _ _ _ hbf
  have hcontains : (lit ++ placeholderPat key).contains '{' = true := by
    have hm : '{' ∈ lit ++ placeholderPat key :=
      List.mem_append_right _ (by rw [e]; exact List.mem_cons_self _ _)
    simpa [List.contains] using hm
  simp only [resolveUri]
  rw [if_pos hcontains]
  simp only [List.foldl]
  rw [h1, h2, h3]

/-- Resolution of the `quote` template, the one route with two placeholders,
against the parameter list `quote(exchange, tradingsymbol)` builds: both
placeholders are replaced by their literal values and the injected auth
parameters change nothing. -/
theorem quote_template_resolve (ex ts u tk : String)
    (hex : braceFree ex.data = true) (hts : braceFree ts.data = true) :
    resolveUri "/quote/{exchange}/{tradingsymbol}".data
        [("exchange", ex), ("tradingsymbol", ts), ("user_id", u), ("token", tk)] =
      "/quote/".data ++ (ex.data ++ ('/' :: ts.data)) := by
  have eex : placeholderPat "exchange" = '{' :: ("exchange".data ++ ['}']) := rfl
  have ets : placeholderPat "tradingsymbol" =
      '{' :: ("tradingsymbol".data ++ ['}']) := rfl
  have htmpl : "/quote/{exchange}/{tradingsymbol}".data =
      "/quote/".data ++ (placeholderPat "exchange" ++
        ('/' :: placeholderPat "tradingsymbol")) := by decide
  have hlen1 : 0 < (placeholderPat "exchange").length := by simp [placeholderPat]
  have hlen2 : 0 < (placeholderPat "tradingsymbol").length := by
    simp [placeholderPat]
  have h1 : replaceSub (placeholderPat "exchange") ex.data
      "/quote/{exchange}/{tradingsymbol}".data =
      "/quote/".data ++ (ex.data ++ ('/' :: placeholderPat "tradingsymbol")) := by
    rw [htmpl, eex, replaceSub_append_of_braceFree _ _ _ _ (by decide), ← eex,
      replaceSub_head_match _ _ _ hlen1,
      replaceSub_of_not_occursIn _ _ _ (by decide)]
  have h2 : replaceSub (placeholderPat "tradingsymbol") ts.data
      ("/quote/".data ++ (ex.data ++ ('/' :: placeholderPat "tradingsymbol"))) =
      "/quote/".data ++ (ex.data ++ ('/' :: ts.data)) := by
    have hsplit : "/quote/".data ++ (ex.data ++ ('/' :: placeholderPat "tradingsymbol")) =
        ("/quote/".data ++ ex.data ++ ['/']) ++ placeholderPat "tradingsymbol" := by
      simp [List.append_assoc]
    have ha : braceFree ("/quote/".data ++ ex.data ++ ['/']) = true := by
      rw [braceFree_append, braceFree_append]
      rw [hex]
      decide
    rw [hsplit, ets, replaceSub_append_of_braceFree _ _ _ _ ha, ← ets,
      replaceSub_self _ _ hlen2]
    simp [List.append_assoc]
  have hbf : braceFree ("/quote/".data ++ (ex.data ++ ('/' :: ts.data))) = true := by
    rw [braceFree_append, hex.symm]
    rw [braceFree_append]
    rw [hex]
    have : braceFree ('/' :: ts.data) = true := by
      simp [braceFree] at hts ⊢
      exact hts
    rw [this]
    decide
  have h3 : replaceSub (placeholderPat "user_id") u.data
      ("/quote/".data ++ (ex.data ++ ('/' :: ts.data))) =
      "/quote/".data ++ (ex.data ++ ('/' :: ts.data)) :=
    replaceSub_of_braceFree _ _ _ hbf
  have h4 : replaceSub (placeholderPat "token") tk.data
      ("/quote/".data ++ (ex.data ++ ('/' :: ts.data))) =
      "/quote/".data ++ (ex.data ++ ('/' :: ts.data)) :=
    replaceSub_of_braceFree _ _ _ hbf
  simp only [resolveUri]
  rw [if_pos (by decide)]
  simp only [List.foldl]
  rw [h1, h2, h3, h4]

/-- Claim C1 (code bug in the source): evaluation at the failing input.
Client A (token set) performs the no-argument `profile()`; then client B
(token never set) performs `profile()`.  Because `_get`'s default
`params={}` dict is evaluated once and shared, B's outgoing request still
carries A's token even though `B.token = none`, so the request carries
`token` without any token having been set on B.  The `user_id` half of the
invariant does hold on this input: B's request carries B's own `user_id`. -/
theorem token_iff_set_fails_on_shared_default :
    (let A := Kite.init "A" (some "tokA") none false 7
     let B := Kite.init "B" none none false 7
     let st1 := (getNoParams A "profile" []).2
     let r2 := (getNoParams B "profile" st1).1
     B.token = none ∧
     (match r2 with
      | .sent req => getParam req.params "token"
      | .routeKeyError _ => none) = some "tokA" ∧
     (match r2 with
      | .sent req => getParam req.params "user_id"
      | .routeKeyError _ => none) = some "B") := by
  decide

/-- Claim C2: the single mutable default `params={}` dict of `_get`
persists injected parameters across calls that omit the argument.  After
client A (token set) runs the no-argument `orders()`, the shared default
dict holds A's token; a following no-argument `orders()` on client B (token
not set) sends a request that still carries A's token.  `_request` also
mutates a caller-supplied dict in place, adding `user_id` and `token`. -/
theorem shared_default_dict_token_leak :
    (let A := Kite.init "A" (some "tokA") none false 7
     let B := Kite.init "B" none none false 7
     let st1 := (getNoParams A "orders" []).2
     let r2 := (getNoParams B "orders" st1).1
     getParam st1 "token" = some "tokA" ∧
     truthyToken B.token = false ∧
     (match r2 with
      | .sent req => getParam req.params "token"
      | .routeKeyError _ => none) = some "tokA") ∧
    (let A := Kite.init "A" (some "tokA") none false 7
     let ps : Params := [("segment", "equity")]
     getParam ps "user_id" = none ∧
     getParam (getWithParams A "margins" ps).2 "user_id" = some "A" ∧
     getParam (getWithParams A "margins" ps).2 "token" = some "tokA") := by
  decide

/-- Claim C3 (code bug in the source): the `root` constructor argument does
not override the base URL.  `__init__` stores it in `self.root` (line 58)
but `_request` reads `self._root` (line 641), which resolves to the class
attribute `"http://localhost:8000"`: a client constructed with
`root="http://example.com"` still sends `login` to the default root. -/
theorem root_override_ignored :
    (let c := Kite.init "U" none (some "http://example.com") false 7
     let url := match (prepare c "login" "GET" []).1 with
       | .sent r => r.url
       | .routeKeyError _ => []
     c.root = some "http://example.com" ∧
     url = "http://localhost:8000/user/login".data ∧
     url ≠ "http://example.com/user/login".data) := by
  decide

/-- Claim C8: each transport-failure category maps to a
`ClientNetworkException` carrying its fixed synthetic code — connection
error 503, timeout 504, malformed HTTP response 502, any other transport
exception 500 (with its message preserved) — and the four codes are
pairwise distinct. -/
theorem transport_failure_codes :
    transportError .connError = .clientNetworkExc "Gateway connection error" 503 ∧
    transportError .timeoutErr = .clientNetworkExc "Gateway timed out" 504 ∧
    transportError .httpErr = .clientNetworkExc "Invalid response from gatway" 502 ∧
    (∀ m, transportError (.otherErr m) = .clientNetworkExc m 500) ∧
    ([503, 504, 502, 500] : List Nat).Nodup :=
  ⟨rfl, rfl, rfl, fun _ => rfl, by decide⟩

/-- Claim C5: for a JSON error envelope with HTTP status 403, a registered
session hook is invoked exactly once and the operation returns Python
`None` — no error raised and no data; with no hook registered, the same
input instead raises whatever the envelope's `error_type` dispatch
(`mapApiError`) produces. -/
theorem session_hook_short_circuit_403 (r : Resp) (o : JObj)
    (hct : r.contentType = "application/json")
    (hj : r.json = some (.obj o))
    (hst : jGet o "status" = some (.s "error"))
    (hcode : r.status_code = 403) :
    handleResponse true r = (.noneRet, 1) ∧
    handleResponse false r = (mapApiError o r.status_code, 0) := by
  constructor <;> simp [handleResponse, hct, hj, hst, hcode]

/-- Witness for `session_hook_short_circuit_403` at a concrete 403
`UserException` envelope. -/
theorem session_hook_short_circuit_403_witness :
    handleResponse true
        ⟨403, "application/json", "",
          some (.obj [("status", .s "error"), ("error_type", .s "UserException"),
                      ("message", .s "session expired")])⟩ = (.noneRet, 1) ∧
    handleResponse false
        ⟨403, "application/json", "",
          some (.obj [("status", .s "error"), ("error_type", .s "UserException"),
                      ("message", .s "session expired")])⟩ =
      (.raised (.userExc (.s "session expired") 403), 0) := by
  have h := session_hook_short_circuit_403
    ⟨403, "application/json", "",
      some (.obj [("status", .s "error"), ("error_type", .s "UserException"),
                  ("message", .s "session expired")])⟩
    [("status", .s "error"), ("error_type", .s "UserException"),
     ("message", .s "session expired")] rfl rfl rfl rfl
  exact ⟨h.1, by rw [h.2]; rfl⟩

/-- Claim C6: when a 403 JSON error envelope with a registered session hook
reaches an order-mutation endpoint (`order_place`, `order_modify`,
`order_cancel`, `amo_place`, `amo_modify`, `amo_cancel`), `_request` returns
`None`, the method subscripts that `None` with `["order_id"]`, and the call
raises `TypeError` instead of completing the short circuit cleanly (the hook
having been invoked exactly once). -/
theorem order_endpoints_subscript_none_after_hook (r : Resp) (o : JObj)
    (hct : r.contentType = "application/json")
    (hj : r.json = some (.obj o))
    (hst : jGet o "status" = some (.s "error"))
    (hcode : r.status_code = 403) :
    orderEndpointOutcome true r = (.raised .pyTypeError, 1) := by
  simp [orderEndpointOutcome, handleResponse, subscriptOrderId, hct, hj, hst, hcode]

/-- Witness for `order_endpoints_subscript_none_after_hook` at a concrete
403 error envelope. -/
theorem order_endpoints_subscript_none_after_hook_witness :
    orderEndpointOutcome true
        ⟨403, "application/json", "",
          some (.obj [("status", .s "error"), ("error_type", .s "GeneralException"),
                      ("message", .s "invalid session")])⟩ =
      (.raised .pyTypeError, 1) :=
  order_endpoints_subscript_none_after_hook
    ⟨403, "application/json", "",
      some (.obj [("status", .s "error"), ("error_type", .s "GeneralException"),
                  ("message", .s "invalid session")])⟩
    [("status", .s "error"), ("error_type", .s "GeneralException"),
     ("message", .s "invalid session")] rfl rfl rfl rfl

/-- Claim C10: a response whose content-type is `image/jpeg` or `image/jpg`
is returned as its raw body bytes unconditionally — for every status code,
body, and parse outcome, and whether or not a hook is registered — and is
never routed through JSON parsing or error classification. -/
theorem image_content_returned_raw (hasHook : Bool) (r : Resp)
    (h : r.contentType = "image/jpeg" ∨ r.contentType = "image/jpg") :
    handleResponse hasHook r = (.content r.content, 0) := by
  rcases h with h | h <;> simp [handleResponse, h]

/-- Witness for `image_content_returned_raw`: a non-2xx `image/jpeg`
response is returned as raw bytes. -/
theorem image_content_returned_raw_witness :
    handleResponse false ⟨500, "image/jpeg", "RAWBYTES", none⟩ =
      (.content "RAWBYTES", 0) :=
  image_content_returned_raw false ⟨500, "image/jpeg", "RAWBYTES", none⟩
    (Or.inl rfl)

/-- Claim C4, counterexample to the claim as stated: a JSON error envelope
whose `error_type` key is missing does not produce the `GeneralException`
fallback — `data["error_type"]` raises `KeyError` before any branch of the
dispatch is reached, so the mapping is not total over envelopes lacking
`error_type`. -/
theorem missing_error_type_raises_keyerror :
    handleResponse false
        ⟨500, "application/json", "",
          some (.obj [("status", .s "error"), ("message", .s "oops")])⟩ =
      (.raised (.pyKeyError "error_type"), 0) ∧
    isGeneralRaise
        (handleResponse false
          ⟨500, "application/json", "",
            some (.obj [("status", .s "error"), ("message", .s "oops")])⟩).1 =
      false :=
  ⟨rfl, rfl⟩

/-- Claim C4 as amended: for an envelope carrying a `message`, each of the
seven recognised `error_type` strings yields the correspondingly-kinded
typed error with the message preserved verbatim and the HTTP status
attached (`TwoFAException` additionally carrying `questions`); an
`error_type` present but not among the seven falls back to
`GeneralException`; a missing `error_type` key raises `KeyError` instead of
falling back. -/
theorem error_type_dispatch_table (o : JObj) (code : Nat) (m : JVal)
    (hm : jGet o "message" = some m) :
    (jGet o "error_type" = some (.s "GeneralException") →
      mapApiError o code = .raised (.generalExc m code)) ∧
    (jGet o "error_type" = some (.s "UserException") →
      mapApiError o code = .raised (.userExc m code)) ∧
    (∀ q, jGet o "questions" = some q →
      jGet o "error_type" = some (.s "TwoFAException") →
      mapApiError o code = .raised (.twoFAExc m q code)) ∧
    (jGet o "error_type" = some (.s "OrderException") →
      mapApiError o code = .raised (.orderExc m code)) ∧
    (jGet o "error_type" = some (.s "InputException") →
      mapApiError o code = .raised (.inputExc m code)) ∧
    (jGet o "error_type" = some (.s "DataException") →
      mapApiError o code = .raised (.dataExc m code)) ∧
    (jGet o "error_type" = some (.s "NetworkException") →
      mapApiError o code = .raised (.networkExc m code)) ∧
    (∀ et, jGet o "error_type" = some et → isMappedTypeName et = false →
      mapApiError o code = .raised (.generalExc m code)) ∧
    (jGet o "error_type" = none →
      mapApiError o code = .raised (.pyKeyError "error_type")) := by
  refine ⟨?_, ?_, ?_, ?_, ?_, ?_, ?_, ?_, ?_⟩
  · intro h; simp [mapApiError, h, withMsg, hm, errTypeStr]
  · intro h; simp [mapApiError, h, withMsg, hm, errTypeStr]
  · intro q hq h; simp [mapApiError, h, withMsg, hm, hq, errTypeStr]
  · intro h; simp [mapApiError, h, withMsg, hm, errTypeStr]
  · intro h; simp [mapApiError, h, withMsg, hm, errTypeStr]
  · intro h; simp [mapApiError, h, withMsg, hm, errTypeStr]
  · intro h; simp [mapApiError, h, withMsg, hm, errTypeStr]
  · intro et h hf
    simp only [isMappedTypeName, decide_eq_false_iff_not] at hf
    push_neg at hf
    obtain ⟨h1, h2, h3, h4, h5, h6, h7⟩ := hf
    simp [mapApiError, h, withMsg, hm, h1, h2, h3, h4, h5, h6, h7]
  · intro h; simp [mapApiError, h]

/-- Witness for `error_type_dispatch_table` at concrete envelopes: a
`UserException` envelope maps to the user error, and an unrecognised
`error_type` falls back to `GeneralException`. -/
theorem error_type_dispatch_table_witness :
    mapApiError [("error_type", .s "UserException"), ("message", .s "bad user")]
        418 = .raised (.userExc (.s "bad user") 418) ∧
    mapApiError [("error_type", .s "SomethingElse"), ("message", .s "bad user")]
        418 = .raised (.generalExc (.s "bad user") 418) :=
  ⟨(error_type_dispatch_table
      [("error_type", .s "UserException"), ("message", .s "bad user")]
      418 (.s "bad user") rfl).2.1 rfl,
   (error_type_dispatch_table
      [("error_type", .s "SomethingElse"), ("message", .s "bad user")]
      418 (.s "bad user") rfl).2.2.2.2.2.2.2.1 (.s "SomethingElse") rfl rfl⟩

/-- Claim C7, counterexample to the claim as stated: a GET on the `margins`
route with no `segment` parameter does not fail with an input error — the
request is sent, and its URL still contains the unresolved `{segment}`
placeholder (and hence the character `'{'`). -/
theorem unresolved_placeholder_sent_counterexample :
    (prepare (Kite.init "DM0002" none none false 7) "margins" "GET" []).1 =
      .sent ⟨"GET", "http://localhost:8000/user/margins/{segment}".data,
             [("user_id", "DM0002")]⟩ ∧
    ("http://localhost:8000/user/margins/{segment}".data).contains '{' = true := by
  decide

/-- Claim C7 as amended: when a placeholder's key is absent from the
supplied parameters, no input error is raised and nothing stops the send —
the pre-send phase of `_request` has no validation at all, so the request
goes out with the placeholder left unresolved in the URL.  Shown for every
client `user_id` on the `margins` route called with an empty parameter
dict: the outcome is always a sent request whose URL still contains
`{segment}`. -/
theorem unresolved_placeholder_is_sent (u : String) :
    (prepare (Kite.init u none none false 7) "margins" "GET" []).1 =
      .sent ⟨"GET", "http://localhost:8000/user/margins/{segment}".data,
             [("user_id", u)]⟩ ∧
    ("http://localhost:8000/user/margins/{segment}".data).contains '{' = true :=
  ⟨rfl, by decide⟩

/-- Claim C9, counterexample to the claim as stated: resolving the `quote`
route with a parameter set containing both placeholder keys, where the
`tradingsymbol` value itself contains a brace, yields a URL that still
contains the character `'{'`. -/
theorem substituted_brace_counterexample :
    (resolveUri "/quote/{exchange}/{tradingsymbol}".data
        [("exchange", "NSE"), ("tradingsymbol", "A\x7bB"),
         ("user_id", "U"), ("token", "T")]).contains '{' = true := by
  decide

/-- Claim C9 as amended: for every route template of the table that
contains placeholders (first conjunct: exactly the templates listed, as
filtered from `kiteRoutes`), resolving with a parameter set that contains
every placeholder key — the key's value first, then the injected `user_id`
and `token`, as the wrapper methods build it — substitutes each placeholder
by the literal parameter value; provided no substituted value contains a
brace character, the result contains no `'{'`.  (Without that proviso the
claim fails, see the counterexample: the substitution is still literal but
the brace survives into the URL.) -/
theorem placeholder_substitution (seg oid ex ts u tk : String)
    (hseg : braceFree seg.data = true) (hoid : braceFree oid.data = true)
    (hex : braceFree ex.data = true) (hts : braceFree ts.data = true) :
    ((kiteRoutes.map Prod.snd).filter (fun t => t.data.contains '{')) =
      ["/user/margins/{segment}", "/orders/{order_id}", "/orders/{order_id}",
       "/orders/{order_id}", "/amo/{order_id}", "/amo/{order_id}",
       "/orders/{order_id}", "/scrips/{exchange}",
       "/quote/{exchange}/{tradingsymbol}"] ∧
    (resolveUri "/user/margins/{segment}".data
        [("segment", seg), ("user_id", u), ("token", tk)] =
      "/user/margins/".data ++ seg.data ∧
     braceFree ("/user/margins/".data ++ seg.data) = true) ∧
    (resolveUri "/orders/{order_id}".data
        [("order_id", oid), ("user_id", u), ("token", tk)] =
      "/orders/".data ++ oid.data ∧
     braceFree ("/orders/".data ++ oid.data) = true) ∧
    (resolveUri "/amo/{order_id}".data
        [("order_id", oid), ("user_id", u), ("token", tk)] =
      "/amo/".data ++ oid.data ∧
     braceFree ("/amo/".data ++ oid.data) = true) ∧
    (resolveUri "/scrips/{exchange}".data
        [("exchange", ex), ("user_id", u), ("token", tk)] =
      "/scrips/".data ++ ex.data ∧
     braceFree ("/scrips/".data ++ ex.data) = true) ∧
    (resolveUri "/quote/{exchange}/{tradingsymbol}".data
        [("exchange", ex), ("tradingsymbol", ts), ("user_id", u), ("token", tk)] =
      "/quote/".data ++ (ex.data ++ ('/' :: ts.data)) ∧
     braceFree ("/quote/".data ++ (ex.data ++ ('/' :: ts.data))) = true) := by
  refine ⟨by decide, ⟨?_, ?_⟩, ⟨?_, ?_⟩, ⟨?_, ?_⟩, ⟨?_, ?_⟩, ⟨?_, ?_⟩⟩
  · rw [show "/user/margins/{segment}".data =
        "/user/margins/".data ++ placeholderPat "segment" from by decide]
    exact single_trailing_resolve _ _ seg u tk (by decide) hseg
  · rw [braceFree_append, hseg]; decide
  · rw [show "/orders/{order_id}".data =
        "/orders/".data ++ placeholderPat "order_id" from by decide]
    exact single_trailing_resolve _ _ oid u tk (by decide) hoid
  · rw [braceFree_append, hoid]; decide
  · rw [show "/amo/{order_id}".data =
        "/amo/".data ++ placeholderPat "order_id" from by decide]
    exact single_trailing_resolve _ _ oid u tk (by decide) hoid
  · rw [braceFree_append, hoid]; decide
  · rw [show "/scrips/{exchange}".data =
        "/scrips/".data ++ placeholderPat "exchange" from by decide]
    exact single_trailing_resolve _ _ ex u tk (by decide) hex
  · rw [braceFree_append, hex]; decide
  · exact quote_template_resolve ex ts u tk hex hts
  · rw [braceFree_append, hex.symm, braceFree_append, hex]
    have : braceFree ('/' :: ts.data) = true := by
      simp [braceFree] at hts ⊢
      exact hts
    rw [this]
    decide

/-- Witness for `placeholder_substitution` at concrete brace-free values:
the `margins` and `quote` templates resolve to the substituted URLs. -/
theorem placeholder_substitution_witness :
    (resolveUri "/user/margins/{segment}".data
        [("segment", "equity"), ("user_id", "DM0002"), ("token", "tok")] =
      "/user/margins/".data ++ "equity".data ∧
     braceFree ("/user/margins/".data ++ "equity".data) = true) ∧
    (resolveUri "/quote/{exchange}/{tradingsymbol}".data
        [("exchange", "NSE"), ("tradingsymbol", "RELIANCE"),
         ("user_id", "DM0002"), ("token", "tok")] =
      "/quote/".data ++ ("NSE".data ++ ('/' :: "RELIANCE".data)) ∧
     braceFree ("/quote/".data ++ ("NSE".data ++ ('/' :: "RELIANCE".data))) = true) :=
  ⟨(placeholder_substitution "equity" "141119000062604" "NSE" "RELIANCE"
      "DM0002" "tok" (by decide) (by decide) (by decide) (by decide)).2.1,
   (placeholder_substitution "equity" "141119000062604" "NSE" "RELIANCE"
      "DM0002" "tok" (by decide) (by decide) (by decide) (by decide)).2.2.2.2.2⟩

end KiteModel
